import Mathlib

/-!
Verification of the medorder_prediction workflow scripts.

The development embeds the two pipeline scripts:
* `src/mimic/resume_training_no_valid_mimic.py` — the resume-training
  orchestrator, modelled as a function from a checkpoint directory (a record of
  the persisted artifacts) to the directory state after the script finishes,
  together with the values it passed to the training loop;
* `src/mimic/w2v_embeddings_mimic.py` — the grid-search orchestrator: the
  analogy-accuracy scorer, the best-configuration selection performed by the
  cross-validated search utility with its `error_score=0` convention, and the
  final (coordinates, cluster, entity) table.

Model weights, embedding vectors and entities are opaque to the scripts, so
they are type parameters; Python integers are `Int`/`Nat` (unbounded), Python
float division in the scorer is embedded fallibly (`Option ℚ`, `none` on a
zero denominator, matching the uncaught `ZeroDivisionError`).
-/

/-- The hyperparameter bundle `hp.joblib`: the tuple
`(N_TRAINING_EPOCHS, BATCH_SIZE, SEQUENCE_LENGTH, W2V_EMBEDDING_DIM)`
unpacked on line 60 of the resume script. -/
structure Hyperparams where
  n_training_epochs : Int
  batch_size : Nat
  sequence_length : Nat
  w2v_embedding_dim : Nat
deriving DecidableEq

/-- A checkpoint directory (`save_path`): one field per persisted artifact.
`sampled_encs` is `some` exactly when the restricted-data marker file
`sampled_encs.pkl` is present (its content: the sampled encounter ids);
`w2v`, `pse`, `le` are the opaque fitted transformers; `model_file` is the
terminal `model.h5` artifact, `none` while it does not exist. -/
structure Checkpoint (M : Type) where
  hp : Hyperparams
  sampled_encs : Option (List Nat)
  w2v : Nat
  pse : Nat
  le : Nat
  done_epochs : Int
  partially_trained_model : M
  model_file : Option M
deriving DecidableEq

/-- Modelled from the spec: `data.load_data(previous_encs_path=enc_file, ...)`
comes from the shared library `components_mimic`, which is not part of the two
source files.  Per the spec, the data-loading service returns the restricted
subset of the dataset when a previous-encounters file is given and the full
dataset otherwise. -/
def load_data (full_data : List Nat) : Option (List Nat) → List Nat
  | some sampled => full_data.filter (fun e => sampled.contains e)
  | none => full_data

/-- Modelled from the spec: the per-epoch callback produced by
`neural_network().callbacks(save_path, callback_mode='train_no_valid',
n_done_epochs=N_DONE_EPOCHS)` lives in `components_mimic`, not in the two
source files.  Per the spec (§4.1 step 7), after every epoch it persists the
updated completed-epoch counter and the in-progress model weights to the
checkpoint directory, so that a second interruption loses at most one epoch.
After the (0-based) `i`-th resumed epoch the counter reads
`n_done_epochs + i + 1`. -/
def resume_callback {M : Type} (n_done_epochs : Int) (i : Nat) (m : M)
    (dir : Checkpoint M) : Checkpoint M :=
  { dir with
      done_epochs := n_done_epochs + (i : Int) + 1
      partially_trained_model := m }

/-- The body of the Keras training loop: run `k` epochs starting at epoch
index `i`, applying the per-epoch training step to the in-memory model and
invoking the per-epoch callback on the checkpoint directory after each
epoch. -/
def fitLoop {M : Type} (trainEpoch : M → M)
    (cb : Nat → M → Checkpoint M → Checkpoint M) :
    Nat → Nat → M → Checkpoint M → M × Checkpoint M
  | 0, _, m, dir => (m, dir)
  | k + 1, i, m, dir =>
      fitLoop trainEpoch cb k (i + 1) (trainEpoch m)
        (cb i (trainEpoch m) dir)

/-- `model.fit_generator(train_generator, epochs=e, callbacks=..., ...)`
(lines 156-159): the Keras loop runs epochs `0, 1, ..., e-1`, i.e. `e`
epochs when `e > 0` and none when `e ≤ 0` (`Int.toNat` clamps at zero,
matching `range(0, e)`). -/
def fit_generator {M : Type} (trainEpoch : M → M)
    (cb : Nat → M → Checkpoint M → Checkpoint M) (epochs : Int) (m : M)
    (dir : Checkpoint M) : M × Checkpoint M :=
  fitLoop trainEpoch cb epochs.toNat 0 m dir

/-- The observable outcome of one run of the resume script: the checkpoint
directory after the run, the dataset handed to `make_lists`, the value passed
as `epochs=` to `fit_generator`, and the in-memory model that `model.save`
wrote to `model.h5`. -/
structure ResumeResult (M : Type) where
  dir : Checkpoint M
  loaded_data : List Nat
  epochs_arg : Int
  final_model : M
deriving DecidableEq

/-- The resume-training orchestrator `resume_training_no_valid_mimic.py`,
line by line: unpack `hp.joblib` (line 60); check for the restricted-data
marker `sampled_encs.pkl` and choose `enc_file` accordingly (lines 64-68);
load the data (line 70); read `done_epochs.pkl` (lines 115-116); load
`partially_trained_model.h5` (line 139); resume training for
`N_TRAINING_EPOCHS - N_DONE_EPOCHS` epochs with the per-epoch checkpoint
callback (lines 156-159); save the final model to `model.h5` (line 161). -/
def resume_training {M : Type} (trainEpoch : M → M) (full_data : List Nat)
    (dir0 : Checkpoint M) : ResumeResult M :=
  let hp := dir0.hp
  let enc_file : Option (List Nat) :=
    if dir0.sampled_encs.isSome then dir0.sampled_encs else none
  let loaded := load_data full_data enc_file
  let n_done := dir0.done_epochs
  let model0 := dir0.partially_trained_model
  let epochs : Int := hp.n_training_epochs - n_done
  let fitRes := fit_generator trainEpoch (resume_callback n_done) epochs
    model0 dir0
  let finalDir := { fitRes.2 with model_file := some fitRes.1 }
  { dir := finalDir
    loaded_data := loaded
    epochs_arg := epochs
    final_model := fitRes.1 }

/-- The analogy-accuracy scorer (lines 115-119 of the grid-search script):
`accuracy = len(acc_dict[1]['correct']) / (len(acc_dict[1]['correct']) +
len(acc_dict[1]['incorrect']))`.  The two lists of analogies are opaque; the
Python division raises `ZeroDivisionError` when both lists are empty, embedded
as `none`. -/
def accuracy_scorer_gensim (correct incorrect : List Nat) : Option ℚ :=
  let den : ℚ := (correct.length : ℚ) + (incorrect.length : ℚ)
  if den = 0 then none else some ((correct.length : ℚ) / den)

/-- Both searches are constructed with `error_score=0`
(`GridSearchCV(..., error_score=0, ...)`, lines 134 and 181). -/
def error_score : ℚ := 0

/-- The score the search utility records for one configuration: the value the
scorer returned, or `error_score` when scoring that configuration raised. -/
def recorded_score : Except Unit ℚ → ℚ
  | Except.error _ => error_score
  | Except.ok s => s

/-- First index attaining the maximum of a list of scores (the search
utility's best-index selection: ranks are minimal exactly at the maxima and
`argmin` over ranks returns the first of them). -/
def bestIdx : List ℚ → Nat
  | [] => 0
  | [_] => 0
  | x :: y :: ys =>
      if x < (y :: ys).getD (bestIdx (y :: ys)) 0 then bestIdx (y :: ys) + 1
      else 0

/-- The best-configuration selection of a cross-validated search constructed
with `error_score=0`: each configuration's recorded score (errors recorded as
`error_score = 0`), then the first index attaining the maximum.  Used by both
`w2v_gscv` (line 134) and `clust_gscv` (line 181). -/
def gscv_best_index (outcomes : List (Except Unit ℚ)) : Nat :=
  bestIdx (outcomes.map recorded_score)

/-- One embedding configuration's evaluation outcome, obtained from the
analogy scorer: a raised `ZeroDivisionError` becomes a search-level error. -/
def w2v_candidate_outcome (r : List Nat × List Nat) : Except Unit ℚ :=
  match accuracy_scorer_gensim r.1 r.2 with
  | none => Except.error ()
  | some q => Except.ok q

/-- The embedding grid search `w2v_gscv` (line 134): configurations scored by
`accuracy_scorer_gensim`, best selected by the `error_score=0` convention. -/
def w2v_gscv (cands : List (List Nat × List Nat)) : Nat :=
  gscv_best_index (cands.map w2v_candidate_outcome)

/-- `zip(umap_vectors, clusters, index2entity)` of the final-table loop
(line 239): truncating three-way zip, one row `(coords, cluster, entity)` per
position. -/
def zip3Rows {C E : Type} : List C → List Int → List E → List (C × Int × E)
  | c :: cs, k :: ks, e :: es => (c, k, e) :: zip3Rows cs ks es
  | _, _, _ => []

/-- Row comparison used by `graph_data_df.sort_values(by='cluster')`
(line 244): order rows by their cluster id. -/
def rowLE {C E : Type} (a b : C × Int × E) : Prop := a.2.1 ≤ b.2.1

instance {C E : Type} : DecidableRel (@rowLE C E) := fun a b =>
  inferInstanceAs (Decidable (a.2.1 ≤ b.2.1))

instance {C E : Type} : IsTotal (C × Int × E) rowLE :=
  ⟨fun a b => Int.le_total a.2.1 b.2.1⟩

instance {C E : Type} : IsTrans (C × Int × E) rowLE :=
  ⟨fun _ _ _ h1 h2 => le_trans h1 h2⟩

/-- The final flat table `graph_data_df` (lines 237-244): the rows
`(x, y, z, cluster, entity)` built by zipping the 3-D coordinates, the
cluster assignments and the vocabulary, then sorted by cluster id before
being written to `graph_dataframe.csv`. -/
def graph_data_df {C E : Type} (umap_vectors : List C) (clusters : List Int)
    (index2entity : List E) : List (C × Int × E) :=
  List.insertionSort rowLE (zip3Rows umap_vectors clusters index2entity)

/-- A concrete hyperparameter bundle with epoch budget 5, used by the
concrete checkpoints below. -/
def hp5 : Hyperparams :=
  { n_training_epochs := 5
    batch_size := 32
    sequence_length := 30
    w2v_embedding_dim := 64 }

/-- A concrete checkpoint with 3 of 5 epochs completed (the spec's
`done_epochs=3`, `N_TRAINING_EPOCHS=5` scenario). -/
def ckptDone3of5 : Checkpoint Nat :=
  { hp := hp5
    sampled_encs := none
    w2v := 0
    pse := 1
    le := 2
    done_epochs := 3
    partially_trained_model := 0
    model_file := none }

/-- A concrete checkpoint whose counter already equals the epoch budget. -/
def ckptDone5of5 : Checkpoint Nat :=
  { ckptDone3of5 with done_epochs := 5 }

/-- A concrete checkpoint whose counter exceeds the epoch budget. -/
def ckptDone7of5 : Checkpoint Nat :=
  { ckptDone3of5 with done_epochs := 7 }

/-- A concrete checkpoint with one remaining epoch. -/
def ckptDone4of5 : Checkpoint Nat :=
  { ckptDone3of5 with done_epochs := 4 }

/-- A concrete checkpoint carrying the restricted-data marker with sampled
encounter ids 1 and 3. -/
def ckptRestricted : Checkpoint Nat :=
  { ckptDone3of5 with sampled_encs := some [1, 3] }

/-- A concrete candidate list for the embedding search: the first
configuration's analogy test got 1 of 3 analogies right, the second got 2 of
3. -/
def candsW : List (List Nat × List Nat) := [([0], [1, 2]), ([0, 1], [2])]

/-- A concrete outcome list mirroring the spec's scenario (scores 0.7 and
0.9) together with one errored configuration. -/
def outcomesW : List (Except Unit ℚ) :=
  [Except.ok ((7 : ℚ) / 10), Except.ok ((9 : ℚ) / 10), Except.error ()]

/-- The outcome list of a clustering search in which the only configuration
that scored without error received a negative silhouette score. -/
def outcomesNeg : List (Except Unit ℚ) :=
  [Except.error (), Except.ok (-(1 : ℚ) / 2)]

/-- Concrete 3-D coordinates for three vocabulary entities (opaque here). -/
def coordsW : List Nat := [10, 20, 30]

/-- Concrete cluster assignments for the three entities. -/
def clustersW : List Int := [1, 0, 1]

/-- Concrete vocabulary (`index2entity`) of three entities. -/
def entitiesW : List Nat := [7, 8, 9]

/-- The in-memory model after `k` epochs of the fit loop is the `k`-fold
iterate of the per-epoch training step (the callback never touches it). -/
theorem fitLoop_fst {M : Type} (t : M → M)
    (cb : Nat → M → Checkpoint M → Checkpoint M) :
    ∀ (k i : Nat) (m : M) (dir : Checkpoint M),
      (fitLoop t cb k i m dir).1 = t^[k] m := by
  intro k
  induction k with
  | zero => intro i m dir; rfl
  | succ k ih =>
      intro i m dir
      rw [fitLoop, ih, Function.iterate_succ_apply]

/-- After at least one epoch of the fit loop run with the resume callback,
the persisted completed-epoch counter reads the initial counter plus the
index past the last epoch. -/
theorem fitLoop_done_epochs {M : Type} (t : M → M) (d : Int) :
    ∀ (k i : Nat) (m : M) (dir : Checkpoint M), k ≠ 0 →
      (fitLoop t (resume_callback d) k i m dir).2.done_epochs =
        d + ((i + k : Nat) : Int) := by
  intro k
  induction k with
  | zero => intro i m dir h; exact absurd rfl h
  | succ k ih =>
      intro i m dir _
      by_cases hk : k = 0
      · subst hk
        simp [fitLoop, resume_callback]
        omega
      · rw [fitLoop, ih (i + 1) (t m) (resume_callback d i (t m) dir) hk]
        omega

/-- After at least one epoch of the fit loop run with the resume callback,
the persisted in-progress weights are the latest trained model. -/
theorem fitLoop_partial_model {M : Type} (t : M → M) (d : Int) :
    ∀ (k i : Nat) (m : M) (dir : Checkpoint M), k ≠ 0 →
      (fitLoop t (resume_callback d) k i m dir).2.partially_trained_model =
        t^[k] m := by
  intro k
  induction k with
  | zero => intro i m dir h; exact absurd rfl h
  | succ k ih =>
      intro i m dir _
      by_cases hk : k = 0
      · subst hk
        simp [fitLoop, resume_callback]
      · rw [fitLoop, ih (i + 1) (t m) (resume_callback d i (t m) dir) hk,
          Function.iterate_succ_apply]

/-- The fit loop run with the resume callback never touches the
hyperparameter bundle, the restricted-data marker or the three fitted
transformers persisted in the checkpoint directory. -/
theorem fitLoop_frame {M : Type} (t : M → M) (d : Int) :
    ∀ (k i : Nat) (m : M) (dir : Checkpoint M),
      (fitLoop t (resume_callback d) k i m dir).2.hp = dir.hp ∧
      (fitLoop t (resume_callback d) k i m dir).2.sampled_encs =
        dir.sampled_encs ∧
      (fitLoop t (resume_callback d) k i m dir).2.w2v = dir.w2v ∧
      (fitLoop t (resume_callback d) k i m dir).2.pse = dir.pse ∧
      (fitLoop t (resume_callback d) k i m dir).2.le = dir.le := by
  intro k
  induction k with
  | zero => intro i m dir; exact ⟨rfl, rfl, rfl, rfl, rfl⟩
  | succ k ih =>
      intro i m dir
      rw [fitLoop]
      exact ih (i + 1) (t m) (resume_callback d i (t m) dir)

/-- The selected index is in range for a nonempty score list. -/
theorem bestIdx_lt_length : ∀ (l : List ℚ), l ≠ [] → bestIdx l < l.length := by
  intro l
  induction l with
  | nil => intro h; exact absurd rfl h
  | cons x xs ih =>
      intro _
      cases xs with
      | nil => simp [bestIdx]
      | cons y ys =>
          by_cases hlt : x < (y :: ys).getD (bestIdx (y :: ys)) 0
          · rw [show bestIdx (x :: y :: ys) = bestIdx (y :: ys) + 1 from by
              rw [bestIdx, if_pos hlt]]
            simpa using ih (by simp)
          · rw [show bestIdx (x :: y :: ys) = 0 from by rw [bestIdx, if_neg hlt]]
            simp

/-- Every score in the list is at most the score at the selected index. -/
theorem bestIdx_is_max : ∀ (l : List ℚ) (a : ℚ), a ∈ l →
    a ≤ l.getD (bestIdx l) 0 := by
  intro l
  induction l with
  | nil => intro a ha; simp at ha
  | cons x xs ih =>
      intro a ha
      cases xs with
      | nil =>
          simp at ha
          simp [bestIdx, ha]
      | cons y ys =>
          by_cases hlt : x < (y :: ys).getD (bestIdx (y :: ys)) 0
          · rw [show bestIdx (x :: y :: ys) = bestIdx (y :: ys) + 1 from by
              rw [bestIdx, if_pos hlt]]
            rw [List.getD_cons_succ]
            rcases List.mem_cons.mp ha with h | h
            · exact h ▸ le_of_lt hlt
            · exact ih a h
          · rw [show bestIdx (x :: y :: ys) = 0 from by rw [bestIdx, if_neg hlt]]
            rw [List.getD_cons_zero]
            rcases List.mem_cons.mp ha with h | h
            · exact le_of_eq h
            · exact le_trans (ih a h) (not_lt.mp hlt)

/-- Every score strictly before the selected index is strictly below the
selected score: the selection is first-encountered among tied maxima. -/
theorem bestIdx_first : ∀ (l : List ℚ) (j : Nat), j < bestIdx l →
    l.getD j 0 < l.getD (bestIdx l) 0 := by
  intro l
  induction l with
  | nil => intro j h; simp [bestIdx] at h
  | cons x xs ih =>
      intro j h
      cases xs with
      | nil => simp [bestIdx] at h
      | cons y ys =>
          by_cases hlt : x < (y :: ys).getD (bestIdx (y :: ys)) 0
          · rw [show bestIdx (x :: y :: ys) = bestIdx (y :: ys) + 1 from by
              rw [bestIdx, if_pos hlt]] at h ⊢
            rw [List.getD_cons_succ]
            cases j with
            | zero => rw [List.getD_cons_zero]; exact hlt
            | succ j' =>
                rw [List.getD_cons_succ]
                exact ih j' (Nat.lt_of_succ_lt_succ h)
          · rw [show bestIdx (x :: y :: ys) = 0 from by rw [bestIdx, if_neg hlt]] at h
            exact absurd h (Nat.not_lt_zero j)

/-- When the three zipped lists have equal length, the entity column of the
zipped rows is exactly the vocabulary list. -/
theorem zip3Rows_map_entity {C E : Type} :
    ∀ (v : List C) (k : List Int) (e : List E), v.length = e.length →
      k.length = e.length →
      (zip3Rows v k e).map (fun r => r.2.2) = e := by
  intro v
  induction v with
  | nil =>
      intro k e h1 _
      rw [List.length_nil] at h1
      rw [(List.length_eq_zero.mp h1.symm : e = [])]
      cases k <;> rfl
  | cons c cs ih =>
      intro k e h1 h2
      cases e with
      | nil => simp at h1
      | cons e0 es =>
          cases k with
          | nil => simp at h2
          | cons k0 ks =>
              simp [zip3Rows, ih ks es (by simpa using h1) (by simpa using h2)]

/-- C1: for every checkpoint whose counter satisfies
`0 ≤ completed < total`, the resume orchestrator passes exactly
`total - completed` as the epoch count, the resumed training applies the
per-epoch step exactly `total - completed` times to the loaded partial model,
and the per-epoch callback leaves the persisted counter at `total` on
success. -/
theorem c1_resume_trains_remaining_epochs {M : Type} (trainEpoch : M → M)
    (full_data : List Nat) (dir0 : Checkpoint M)
    (_h0 : 0 ≤ dir0.done_epochs)
    (h1 : dir0.done_epochs < dir0.hp.n_training_epochs) :
    (resume_training trainEpoch full_data dir0).epochs_arg =
        dir0.hp.n_training_epochs - dir0.done_epochs ∧
    (((dir0.hp.n_training_epochs - dir0.done_epochs).toNat : Int) =
        dir0.hp.n_training_epochs - dir0.done_epochs) ∧
    (resume_training trainEpoch full_data dir0).final_model =
        trainEpoch^[(dir0.hp.n_training_epochs - dir0.done_epochs).toNat]
          dir0.partially_trained_model ∧
    (resume_training trainEpoch full_data dir0).dir.done_epochs =
        dir0.hp.n_training_epochs := by
  have htn : ((dir0.hp.n_training_epochs - dir0.done_epochs).toNat : Int) =
      dir0.hp.n_training_epochs - dir0.done_epochs :=
    Int.toNat_of_nonneg (by omega)
  have hne : (dir0.hp.n_training_epochs - dir0.done_epochs).toNat ≠ 0 := by
    omega
  refine ⟨rfl, htn, ?_, ?_⟩
  · simp [resume_training, fit_generator, fitLoop_fst]
  · simp only [resume_training, fit_generator]
    rw [fitLoop_done_epochs trainEpoch dir0.done_epochs
      (dir0.hp.n_training_epochs - dir0.done_epochs).toNat 0
      dir0.partially_trained_model dir0 hne]
    omega

/-- C1 witness: the spec's scenario `done_epochs=3`, `N_TRAINING_EPOCHS=5`
(two epochs remain, final counter 5). -/
theorem c1_witness :
    0 ≤ ckptDone3of5.done_epochs ∧
    ckptDone3of5.done_epochs < ckptDone3of5.hp.n_training_epochs ∧
    ((resume_training Nat.succ [] ckptDone3of5).epochs_arg =
        ckptDone3of5.hp.n_training_epochs - ckptDone3of5.done_epochs ∧
    (((ckptDone3of5.hp.n_training_epochs -
        ckptDone3of5.done_epochs).toNat : Int) =
        ckptDone3of5.hp.n_training_epochs - ckptDone3of5.done_epochs) ∧
    (resume_training Nat.succ [] ckptDone3of5).final_model =
        Nat.succ^[(ckptDone3of5.hp.n_training_epochs -
          ckptDone3of5.done_epochs).toNat]
          ckptDone3of5.partially_trained_model ∧
    (resume_training Nat.succ [] ckptDone3of5).dir.done_epochs =
        ckptDone3of5.hp.n_training_epochs) :=
  ⟨by decide, by decide,
    c1_resume_trains_remaining_epochs Nat.succ [] ckptDone3of5
      (by decide) (by decide)⟩

/-- C3: for every checkpoint whose counter already equals the epoch budget,
the resume orchestrator passes 0 as the epoch count, trains for zero epochs
(the saved final model is the loaded partial model, for every conceivable
per-epoch step), saves that unchanged model to the terminal artifact, and
leaves the in-progress weights and the counter untouched. -/
theorem c3_resume_at_boundary {M : Type} (trainEpoch : M → M)
    (full_data : List Nat) (dir0 : Checkpoint M)
    (h : dir0.done_epochs = dir0.hp.n_training_epochs) :
    (resume_training trainEpoch full_data dir0).epochs_arg = 0 ∧
    (resume_training trainEpoch full_data dir0).final_model =
        dir0.partially_trained_model ∧
    (resume_training trainEpoch full_data dir0).dir.model_file =
        some dir0.partially_trained_model ∧
    (resume_training trainEpoch full_data dir0).dir.partially_trained_model =
        dir0.partially_trained_model ∧
    (resume_training trainEpoch full_data dir0).dir.done_epochs =
        dir0.done_epochs := by
  have ht : (dir0.hp.n_training_epochs - dir0.done_epochs).toNat = 0 := by
    omega
  refine ⟨?_, ?_, ?_, ?_, ?_⟩
  · show dir0.hp.n_training_epochs - dir0.done_epochs = 0
    omega
  · simp [resume_training, fit_generator, ht, fitLoop]
  · simp [resume_training, fit_generator, ht, fitLoop]
  · simp [resume_training, fit_generator, ht, fitLoop]
  · simp [resume_training, fit_generator, ht, fitLoop]

/-- C3 witness: a checkpoint with `done_epochs = N_TRAINING_EPOCHS = 5`. -/
theorem c3_witness :
    ckptDone5of5.done_epochs = ckptDone5of5.hp.n_training_epochs ∧
    ((resume_training Nat.succ [] ckptDone5of5).epochs_arg = 0 ∧
    (resume_training Nat.succ [] ckptDone5of5).final_model =
        ckptDone5of5.partially_trained_model ∧
    (resume_training Nat.succ [] ckptDone5of5).dir.model_file =
        some ckptDone5of5.partially_trained_model ∧
    (resume_training Nat.succ [] ckptDone5of5).dir.partially_trained_model =
        ckptDone5of5.partially_trained_model ∧
    (resume_training Nat.succ [] ckptDone5of5).dir.done_epochs =
        ckptDone5of5.done_epochs) :=
  ⟨by decide, c3_resume_at_boundary Nat.succ [] ckptDone5of5 (by decide)⟩

/-- C6: the resume orchestrator never writes the hyperparameter bundle back:
for every execution, the bundle persisted in the checkpoint directory after
the run is exactly the bundle that was read, so the four components (epoch
budget, batch size, sequence length, embedding dimensionality) cannot differ
between the original run and any resume. -/
theorem c6_hp_never_written {M : Type} (trainEpoch : M → M)
    (full_data : List Nat) (dir0 : Checkpoint M) :
    (resume_training trainEpoch full_data dir0).dir.hp = dir0.hp := by
  simp only [resume_training, fit_generator]
  exact (fitLoop_frame trainEpoch dir0.done_epochs
    (dir0.hp.n_training_epochs - dir0.done_epochs).toNat 0
    dir0.partially_trained_model dir0).1

/-- C9: the resume orchestrator performs no validation of the loaded
counter: for any checkpoint whose counter exceeds the epoch budget, the
computed remaining-epoch value `total - completed` is negative and is passed
unchanged as the epoch count (the run is not rejected; the training loop then
executes zero epochs and the stale counter is left in place). -/
theorem c9_no_counter_validation {M : Type} (trainEpoch : M → M)
    (full_data : List Nat) (dir0 : Checkpoint M)
    (h : dir0.hp.n_training_epochs < dir0.done_epochs) :
    (resume_training trainEpoch full_data dir0).epochs_arg =
        dir0.hp.n_training_epochs - dir0.done_epochs ∧
    (resume_training trainEpoch full_data dir0).epochs_arg < 0 ∧
    (resume_training trainEpoch full_data dir0).final_model =
        dir0.partially_trained_model ∧
    (resume_training trainEpoch full_data dir0).dir.done_epochs =
        dir0.done_epochs := by
  have ht : (dir0.hp.n_training_epochs - dir0.done_epochs).toNat = 0 := by
    omega
  refine ⟨rfl, ?_, ?_, ?_⟩
  · show dir0.hp.n_training_epochs - dir0.done_epochs < 0
    omega
  · simp [resume_training, fit_generator, ht, fitLoop]
  · simp [resume_training, fit_generator, ht, fitLoop]

/-- C9 witness: a checkpoint claiming 7 completed epochs against a budget of
5 is accepted and `-2` is handed to the training call. -/
theorem c9_witness :
    ckptDone7of5.hp.n_training_epochs < ckptDone7of5.done_epochs ∧
    ((resume_training Nat.succ [] ckptDone7of5).epochs_arg =
        ckptDone7of5.hp.n_training_epochs - ckptDone7of5.done_epochs ∧
    (resume_training Nat.succ [] ckptDone7of5).epochs_arg < 0 ∧
    (resume_training Nat.succ [] ckptDone7of5).final_model =
        ckptDone7of5.partially_trained_model ∧
    (resume_training Nat.succ [] ckptDone7of5).dir.done_epochs =
        ckptDone7of5.done_epochs) :=
  ⟨by decide, c9_no_counter_validation Nat.succ [] ckptDone7of5 (by decide)⟩

/-- C7 counterexample: the claim states the partial-model artifact is read
but never overwritten; yet on a checkpoint with one remaining epoch the
per-epoch callback (which, per the spec, persists the in-progress weights
after every epoch so that at most one epoch is lost on a second
interruption) overwrites `partially_trained_model` with the newly trained
weights. -/
theorem c7_counterexample :
    (resume_training Nat.succ [] ckptDone4of5).dir.partially_trained_model ≠
      ckptDone4of5.partially_trained_model := by decide

/-- C7 (amended): on completion the final weights are persisted under the
distinct terminal `model` artifact (which holds exactly the final in-memory
model), and the intermediate partial-model artifact remains present in the
checkpoint directory — it is never deleted, though when at least one epoch
runs the per-epoch callback overwrites it with the latest in-progress
weights, leaving it equal either to the weights originally loaded (zero
epochs) or to the final weights (otherwise). -/
theorem c7_final_model_distinct_artifact {M : Type} (trainEpoch : M → M)
    (full_data : List Nat) (dir0 : Checkpoint M) :
    (resume_training trainEpoch full_data dir0).dir.model_file =
        some (resume_training trainEpoch full_data dir0).final_model ∧
    ((resume_training trainEpoch full_data dir0).dir.partially_trained_model =
        dir0.partially_trained_model ∨
      (resume_training trainEpoch full_data dir0).dir.partially_trained_model =
        (resume_training trainEpoch full_data dir0).final_model) := by
  constructor
  · simp [resume_training]
  · by_cases hk : (dir0.hp.n_training_epochs - dir0.done_epochs).toNat = 0
    · left
      simp [resume_training, fit_generator, hk, fitLoop]
    · right
      simp only [resume_training, fit_generator]
      rw [fitLoop_partial_model trainEpoch dir0.done_epochs
          (dir0.hp.n_training_epochs - dir0.done_epochs).toNat 0
          dir0.partially_trained_model dir0 hk,
        fitLoop_fst]

/-- C4: the resume orchestrator loads the restricted (filtered) dataset
exactly when the restricted-data marker is present in the checkpoint
directory — and that restricted dataset is a subset of the full one — while
in the marker's absence the full dataset is loaded; the marker branch always
succeeds (it is informational, not an error). -/
theorem c4_restricted_marker_branch {M : Type} (trainEpoch : M → M)
    (full_data : List Nat) (dir0 : Checkpoint M) :
    (dir0.sampled_encs = none →
      (resume_training trainEpoch full_data dir0).loaded_data = full_data) ∧
    (∀ sampled, dir0.sampled_encs = some sampled →
      (resume_training trainEpoch full_data dir0).loaded_data =
          full_data.filter (fun e => sampled.contains e) ∧
      ∀ x ∈ (resume_training trainEpoch full_data dir0).loaded_data,
        x ∈ full_data) := by
  constructor
  · intro h
    simp [resume_training, h, load_data]
  · intro sampled h
    constructor
    · simp [resume_training, h, load_data]
    · intro x hx
      simp only [resume_training, h, load_data, Option.isSome_some,
        if_true] at hx
      exact List.mem_of_mem_filter hx

/-- C4 witness: with full dataset `[1, 2, 3]`, a checkpoint carrying the
marker `some [1, 3]` loads the subset `[1, 3]`, and a marker-free checkpoint
loads all of `[1, 2, 3]`. -/
theorem c4_witness :
    ckptRestricted.sampled_encs = some [1, 3] ∧
    (resume_training Nat.succ [1, 2, 3] ckptRestricted).loaded_data =
      [1, 3] ∧
    ckptDone3of5.sampled_encs = none ∧
    (resume_training Nat.succ [1, 2, 3] ckptDone3of5).loaded_data =
      [1, 2, 3] :=
  ⟨rfl,
    ((c4_restricted_marker_branch Nat.succ [1, 2, 3] ckptRestricted).2
        [1, 3] rfl).1.trans (by decide),
    rfl,
    (c4_restricted_marker_branch Nat.succ [1, 2, 3] ckptDone3of5).1 rfl⟩

/-- C8: the analogy-accuracy scorer divides by the total number of analogies
attempted without guarding against zero: when the analogy evaluation yields
no correct and no incorrect analogies, the denominator is zero and the scorer
fails (the division raises) instead of returning an accuracy value. -/
theorem c8_scorer_zero_denominator (correct incorrect : List Nat)
    (hc : correct.length = 0) (hi : incorrect.length = 0) :
    accuracy_scorer_gensim correct incorrect = none := by
  simp [accuracy_scorer_gensim, hc, hi]

/-- C8 witness: empty correct and incorrect lists make the scorer fail. -/
theorem c8_witness :
    List.length ([] : List Nat) = 0 ∧
    accuracy_scorer_gensim [] [] = none :=
  ⟨rfl, c8_scorer_zero_denominator [] [] rfl rfl⟩

/-- C2 counterexample: the claim states a configuration whose scoring raised
an error is never selected as best; but with `error_score=0` the errored
configuration is recorded at score 0, which exceeds a genuinely computed
negative silhouette score, so the search selects the errored configuration
(index 0 here). -/
theorem c2_counterexample :
    gscv_best_index outcomesNeg = 0 ∧
    outcomesNeg.getD (gscv_best_index outcomesNeg) (Except.ok 0) =
      Except.error () := by
  have h : gscv_best_index outcomesNeg = 0 := by
    norm_num [gscv_best_index, outcomesNeg, recorded_score, bestIdx,
      error_score]
  exact ⟨h, by rw [h]; simp [outcomesNeg]⟩

/-- C2 (amended): for every nonempty outcome list of either grid search, the
selected best configuration is the first one attaining the maximum recorded
score, where a configuration whose scoring raised is recorded at
`error_score = 0`; an errored configuration is never selected as long as some
configuration scored without error strictly above 0 (in particular, errored
configurations can only win when every non-error score is ≤ 0, e.g. negative
silhouettes). -/
theorem c2_gscv_best_selection (outcomes : List (Except Unit ℚ))
    (h : outcomes ≠ []) :
    gscv_best_index outcomes < outcomes.length ∧
    (∀ s ∈ outcomes.map recorded_score,
        s ≤ (outcomes.map recorded_score).getD (gscv_best_index outcomes) 0) ∧
    ((∃ q : ℚ, Except.ok q ∈ outcomes ∧ error_score < q) →
      ∀ u : Unit,
        outcomes.getD (gscv_best_index outcomes) (Except.error ()) ≠
          Except.error u) := by
  have hb : gscv_best_index outcomes < outcomes.length := by
    have := bestIdx_lt_length (outcomes.map recorded_score) (by simpa using h)
    simpa [gscv_best_index] using this
  refine ⟨hb, ?_, ?_⟩
  · intro s hs
    simpa [gscv_best_index] using
      bestIdx_is_max (outcomes.map recorded_score) s hs
  · rintro ⟨q, hq, hpos⟩ u heq
    have hlen : gscv_best_index outcomes <
        (outcomes.map recorded_score).length := by simpa using hb
    have h1 : (outcomes.map recorded_score).getD (gscv_best_index outcomes)
        0 = recorded_score
          (outcomes.getD (gscv_best_index outcomes) (Except.error ())) := by
      rw [List.getD_eq_getElem _ _ hlen, List.getD_eq_getElem _ _ hb,
        List.getElem_map]
    have h2 : q ≤ (outcomes.map recorded_score).getD
        (gscv_best_index outcomes) 0 := by
      simpa [gscv_best_index] using
        bestIdx_is_max (outcomes.map recorded_score) q
          (List.mem_map.mpr ⟨Except.ok q, hq, rfl⟩)
    rw [h1, heq] at h2
    simp only [recorded_score] at h2
    exact absurd (lt_of_lt_of_le hpos h2) (lt_irrefl error_score)

/-- C2 witness: three configurations scoring 0.7, 0.9 and error; the
selection lands on index 1 (score 0.9), in range, maximal, and not the
errored configuration. -/
theorem c2_witness :
    outcomesW ≠ [] ∧
    (gscv_best_index outcomesW < outcomesW.length ∧
    (∀ s ∈ outcomesW.map recorded_score,
        s ≤ (outcomesW.map recorded_score).getD (gscv_best_index outcomesW)
          0) ∧
    ((∃ q : ℚ, Except.ok q ∈ outcomesW ∧ error_score < q) →
      ∀ u : Unit,
        outcomesW.getD (gscv_best_index outcomesW) (Except.error ()) ≠
          Except.error u)) :=
  ⟨List.cons_ne_nil _ _,
    c2_gscv_best_selection outcomesW (List.cons_ne_nil _ _)⟩

/-- C5: the embedding search's scorer computes analogy accuracy as the
number of correct analogies divided by the total attempted (correct plus
incorrect), and the search selects a configuration whose recorded value is
maximal, ties broken first-encountered (every strictly earlier configuration
scores strictly lower). -/
theorem c5_accuracy_formula_and_selection (correct incorrect : List Nat)
    (h : correct.length + incorrect.length ≠ 0)
    (cands : List (List Nat × List Nat)) (hc : cands ≠ []) :
    accuracy_scorer_gensim correct incorrect =
      some ((correct.length : ℚ) /
        ((correct.length : ℚ) + (incorrect.length : ℚ))) ∧
    w2v_gscv cands < cands.length ∧
    (∀ s ∈ (cands.map w2v_candidate_outcome).map recorded_score,
        s ≤ ((cands.map w2v_candidate_outcome).map recorded_score).getD
          (w2v_gscv cands) 0) ∧
    (∀ j, j < w2v_gscv cands →
        ((cands.map w2v_candidate_outcome).map recorded_score).getD j 0 <
          ((cands.map w2v_candidate_outcome).map recorded_score).getD
            (w2v_gscv cands) 0) := by
  refine ⟨?_, ?_, ?_, ?_⟩
  · have hden : ((correct.length : ℚ) + (incorrect.length : ℚ)) ≠ 0 := by
      have hq : ((correct.length + incorrect.length : Nat) : ℚ) ≠ 0 := by
        exact_mod_cast h
      push_cast at hq
      exact hq
    simp [accuracy_scorer_gensim, hden]
  · have := bestIdx_lt_length
      ((cands.map w2v_candidate_outcome).map recorded_score)
      (by simpa using hc)
    simpa [w2v_gscv, gscv_best_index] using this
  · intro s hs
    simpa [w2v_gscv, gscv_best_index] using
      bestIdx_is_max ((cands.map w2v_candidate_outcome).map recorded_score)
        s hs
  · intro j hj
    have := bestIdx_first
      ((cands.map w2v_candidate_outcome).map recorded_score) j
      (by simpa [w2v_gscv, gscv_best_index] using hj)
    simpa [w2v_gscv, gscv_best_index] using this

/-- C5 witness: a scorer evaluation with 1 correct and 2 incorrect
analogies, and a two-configuration search. -/
theorem c5_witness :
    ([0] : List Nat).length + ([1, 2] : List Nat).length ≠ 0 ∧
    candsW ≠ [] ∧
    (accuracy_scorer_gensim [0] [1, 2] =
      some ((([0] : List Nat).length : ℚ) /
        ((([0] : List Nat).length : ℚ) + (([1, 2] : List Nat).length : ℚ))) ∧
    w2v_gscv candsW < candsW.length ∧
    (∀ s ∈ (candsW.map w2v_candidate_outcome).map recorded_score,
        s ≤ ((candsW.map w2v_candidate_outcome).map recorded_score).getD
          (w2v_gscv candsW) 0) ∧
    (∀ j, j < w2v_gscv candsW →
        ((candsW.map w2v_candidate_outcome).map recorded_score).getD j 0 <
          ((candsW.map w2v_candidate_outcome).map recorded_score).getD
            (w2v_gscv candsW) 0)) :=
  ⟨by decide, List.cons_ne_nil _ _,
    c5_accuracy_formula_and_selection [0] [1, 2] (by decide) candsW
      (List.cons_ne_nil _ _)⟩

/-- C10: the final flat table pairs each vocabulary entity with its 3-D
coordinates and cluster assignment (the table is a permutation of the zipped
rows), is sorted by cluster id in non-decreasing order before being
persisted, and — the three columns having equal length — its entity column
is a permutation of the vocabulary, hence exactly one row per entity when
the vocabulary has no duplicates. -/
theorem c10_graph_table_sorted_one_row_per_entity {C E : Type}
    [DecidableEq E] (umap_vectors : List C) (clusters : List Int)
    (index2entity : List E)
    (h1 : umap_vectors.length = index2entity.length)
    (h2 : clusters.length = index2entity.length) :
    List.Sorted rowLE (graph_data_df umap_vectors clusters index2entity) ∧
    (graph_data_df umap_vectors clusters index2entity).Perm
      (zip3Rows umap_vectors clusters index2entity) ∧
    ((graph_data_df umap_vectors clusters index2entity).map
        (fun r => r.2.2)).Perm index2entity ∧
    (index2entity.Nodup → ∀ x ∈ index2entity,
      ((graph_data_df umap_vectors clusters index2entity).map
          (fun r => r.2.2)).count x = 1) := by
  have hperm : (graph_data_df umap_vectors clusters index2entity).Perm
      (zip3Rows umap_vectors clusters index2entity) :=
    List.perm_insertionSort rowLE _
  have hmap : ((graph_data_df umap_vectors clusters index2entity).map
      (fun r => r.2.2)).Perm index2entity := by
    have hm := hperm.map (fun r => r.2.2)
    rwa [zip3Rows_map_entity umap_vectors clusters index2entity h1 h2] at hm
  refine ⟨List.sorted_insertionSort rowLE _, hperm, hmap, ?_⟩
  intro hn x hx
  rw [hmap.count_eq]
  exact List.count_eq_one_of_mem hn hx

/-- C10 witness: three entities with clusters `[1, 0, 1]`; the persisted
table is cluster-sorted and its entity column is a permutation of the
vocabulary. -/
theorem c10_witness :
    coordsW.length = entitiesW.length ∧
    clustersW.length = entitiesW.length ∧
    (List.Sorted rowLE (graph_data_df coordsW clustersW entitiesW) ∧
    (graph_data_df coordsW clustersW entitiesW).Perm
      (zip3Rows coordsW clustersW entitiesW) ∧
    ((graph_data_df coordsW clustersW entitiesW).map
        (fun r => r.2.2)).Perm entitiesW ∧
    (entitiesW.Nodup → ∀ x ∈ entitiesW,
      ((graph_data_df coordsW clustersW entitiesW).map
          (fun r => r.2.2)).count x = 1)) :=
  ⟨rfl, rfl,
    c10_graph_table_sorted_one_row_per_entity coordsW clustersW entitiesW
      rfl rfl⟩
